import Mathlib

/-
Shallow embedding of the PyDiag state-aware publication engine:
  - HAEntities.py : entity identity (unique_id), `__eq__` / `__hash__`
  - HAPublisher.py : the `_MemoryCacheDict` publish cache, `publish_entity_state`,
    `register_entity` (registry as a Python dict keyed by entities)
  - NetworkMonitor.py : the throughput sampler loop, unit conversion,
    and the lock-protected shared throughput pair

Timestamps (`datetime.now()` values) are modelled as rationals (seconds);
byte counters as integers; Python float arithmetic on these quantities as
exact rational arithmetic.
-/

namespace PyDiag

/- ---------------- HAEntities.py ---------------- -/

/-- The three entity classes defined in HAEntities.py.  `Sensor` and
`BinarySensor` both derive directly from `BaseEntity`. -/
inductive EntityClass
  | base
  | sensor
  | binarySensor
deriving DecidableEq

/-- Python `issubclass(a, b)` restricted to the hierarchy of HAEntities.py:
reflexive, and everything is a subclass of `BaseEntity`. -/
def EntityClass.issubclass : EntityClass → EntityClass → Bool
  | .base, .base => true
  | .sensor, .sensor => true
  | .binarySensor, .binarySensor => true
  | .sensor, .base => true
  | .binarySensor, .base => true
  | _, _ => false

/-- An entity of HAEntities.py: its runtime class, the identity key
`unique_id`, and a sample of the other (non-identity) attributes —
enough to show they play no role in equality or hashing. -/
structure Entity where
  cls : EntityClass
  name : String
  unique_id : String
  icon : Option String := none
  qos : Int := 0
deriving DecidableEq

/-- The `__eq__` method shared (textually repeated) by `BaseEntity`,
`Sensor` and `BinarySensor`:
`if not issubclass(type(o), self.__class__): return False` then
`return self.unique_id == o.unique_id`. -/
def Entity.dunderEq (self o : Entity) : Bool :=
  if ! EntityClass.issubclass o.cls self.cls then false
  else self.unique_id == o.unique_id

/-- Stand-in for Python's builtin string `hash`: any fixed function of the
string models it faithfully for the properties at stake (all hash uses in
the claims reduce to congruence in `unique_id`). -/
def pyStrHash (s : String) : Nat :=
  (s.toList.map Char.toNat).foldl (fun h c => h * 1000003 + c) 0

/-- The `__hash__` method of every entity class: `hash(self.unique_id)`. -/
def entity_hash (e : Entity) : Nat := pyStrHash e.unique_id

/-- Python `a == b` on two entities.  Python's rich-comparison dispatch
tries the reflected operand first when `type(b)` is a proper subclass of
`type(a)` overriding `__eq__` (all three classes define their own
`__eq__`, so any proper subclass overrides); since these `__eq__`
implementations always return a `bool` (never `NotImplemented`), that
first answer is final. -/
def pyEq (a b : Entity) : Bool :=
  if EntityClass.issubclass b.cls a.cls && !(b.cls == a.cls) then
    Entity.dunderEq b a
  else
    Entity.dunderEq a b

/- Python dicts keyed by entities (`_entity_state_memory` and
`entity_value_getter_map`), embedded as association lists.  A lookup probes
entries whose hash matches and compares `stored_key == probe_key`; equal
`unique_id`s give equal hashes, so comparing by `pyEq` alone is faithful.
Insertion of a present key replaces the value, keeping the stored key and
the slot position; an absent key is appended. -/

/-- Dict lookup: first stored key comparing equal to the probe. -/
def dictGet {V : Type} : List (Entity × V) → Entity → Option V
  | [], _ => none
  | (k, v) :: rest, e => if pyEq k e then some v else dictGet rest e

/-- Dict `__setitem__`: replace the value at the first stored key comparing
equal to the probe, else append the new pair. -/
def dictSet {V : Type} : List (Entity × V) → Entity → V → List (Entity × V)
  | [], e, v => [(e, v)]
  | (k, w) :: rest, e, v =>
    if pyEq k e then (k, v) :: rest else (k, w) :: dictSet rest e v

/- ---------------- HAPublisher.py : publish cache ---------------- -/

/-- One entry of `_MemoryCacheDict`: the dict value (wire-form string) and
the `last_updated_map` timestamp, which `__setitem__` always writes
together, so a single record models the pair of dicts. -/
structure CacheEntry where
  value : String
  last_updated : ℚ
deriving DecidableEq

/-- The `_entity_state_memory` cache. -/
abbrev Memory := List (Entity × CacheEntry)

/-- The cache-gated decision of `publish_entity_state` (HAPublisher.py
lines 243-244): publish when the entity has no entry, or the stored value
differs from the candidate, or `now - last_updated` strictly exceeds the
republish interval. -/
def should_publish (interval : ℚ) (mem : Memory) (e : Entity) (value : String)
    (now : ℚ) : Bool :=
  match dictGet mem e with
  | none => true
  | some entry => entry.value != value || decide (now - entry.last_updated > interval)

/-- Outcome of one `publish_entity_state` call, carrying the resulting
global `_entity_state_memory`.  `transportError` is the case where
`client.publish(...).wait_for_publish()` raised: the exception propagates,
but the memory mutation made just before it persists. -/
inductive PublishOutcome
  | published (mem : Memory)
  | skipped (mem : Memory)
  | transportError (mem : Memory)
deriving DecidableEq

/-- `publish_entity_state` (HAPublisher.py lines 220-254), after the
wire-form conversion of the value (strings pass unchanged, other values
are JSON-encoded by a collaborator; `value` here is the wire form).  When
the gate passes, the cache entry is written FIRST
(`_entity_state_memory[entity] = value`, which also stamps
`last_updated_map`), and only then is the transport publish attempted;
`transport_ok` tells whether that publish succeeds. -/
def publish_entity_state (interval : ℚ) (mem : Memory) (e : Entity)
    (value : String) (now : ℚ) (transport_ok : Bool) : PublishOutcome :=
  if should_publish interval mem e value now then
    let mem' := dictSet mem e ⟨value, now⟩
    if transport_ok then .published mem' else .transportError mem'
  else
    .skipped mem

/- ---------------- HAPublisher.py : registry ---------------- -/

/-- Outcome of `register_entity`, carrying the resulting
`entity_value_getter_map`. -/
inductive RegisterOutcome (G : Type)
  | ok (reg : List (Entity × G))
  | transportError (reg : List (Entity × G))
deriving DecidableEq

/-- `register_entity` (HAPublisher.py lines 186-218): publish the discovery
document (this transport call may raise, leaving the registry untouched),
then store the value getter under the entity key in the dict
`entity_value_getter_map`.  `G` is the opaque type of getters. -/
def register_entity {G : Type} (reg : List (Entity × G)) (e : Entity)
    (getter : G) (transport_ok : Bool) : RegisterOutcome G :=
  if transport_ok then .ok (dictSet reg e getter) else .transportError reg

/- ---------------- NetworkMonitor.py : sampler ---------------- -/

/-- The `NetworkMonitor.Unit` enum (factor, display name). -/
inductive NMUnit
  | Bytes
  | KiloBytes
  | MegaBytes
  | GigaBytes
deriving DecidableEq

/-- The `factor` member of each `NetworkMonitor.Unit` value. -/
def NMUnit.factor : NMUnit → ℚ
  | .Bytes => 1
  | .KiloBytes => 1000
  | .MegaBytes => 1000000
  | .GigaBytes => 1000000000

/-- The shared `self.throughput` pair, in bytes/second. -/
structure Throughput where
  tx : ℚ
  rx : ℚ
deriving DecidableEq

/-- `NetworkMonitor.__init__` sets `self.throughput = {"tx": 0.0, "rx": 0.0}`. -/
def initial_throughput : Throughput := ⟨0, 0⟩

/-- `NetworkMonitor.get_throughput`: divide both stored rates by the unit's
factor (inside the lock; atomicity is modelled separately below). -/
def get_throughput (tp : Throughput) (unit : NMUnit) : Throughput :=
  ⟨tp.tx / unit.factor, tp.rx / unit.factor⟩

/-- One `psutil` byte-counter reading for an interface. -/
structure NetIOCounters where
  bytes_sent : Int
  bytes_recv : Int
deriving DecidableEq

/-- The error raised by `_calculate_throughput` when
`psutil.net_io_counters(pernic=True).get(self.interface, None)` yields no
entry: in the source a `ValueError` with message
`Interface '...' not found.` — the spec's `InterfaceNotFoundError`. -/
inductive SamplerError
  | interfaceNotFound (interface : String)
deriving DecidableEq

/-- One iteration of the `while True` loop of
`NetworkMonitor._calculate_throughput` (lines 33-61), given the two
counter reads of that iteration (`none` = interface absent at that read):
check availability at the initial read, suspend, check again at the final
read, and compute `(final - initial) / sample_interval` for both
directions — the pair that the iteration then stores as `self.throughput`. -/
def calculate_throughput_iteration (interface : String) (sample_interval : ℚ)
    (initial_stats final_stats : Option NetIOCounters) :
    Except SamplerError Throughput :=
  match initial_stats with
  | none => .error (.interfaceNotFound interface)
  | some initial =>
    match final_stats with
    | none => .error (.interfaceNotFound interface)
    | some final =>
      .ok ⟨((final.bytes_sent - initial.bytes_sent : Int) : ℚ) / sample_interval,
           ((final.bytes_recv - initial.bytes_recv : Int) : ℚ) / sample_interval⟩

/-- A finite run of the sampler loop over a schedule of counter reads (one
pair per iteration), threading the stored throughput.  An iteration that
raises aborts the whole run with the error — there is no retry, so the
remaining schedule is never consumed. -/
def calculate_throughput_run (interface : String) (sample_interval : ℚ) :
    List (Option NetIOCounters × Option NetIOCounters) → Throughput →
    Except SamplerError Throughput
  | [], tp => .ok tp
  | (r1, r2) :: rest, _tp =>
    match calculate_throughput_iteration interface sample_interval r1 r2 with
    | .error e => .error e
    | .ok tp' => calculate_throughput_run interface sample_interval rest tp'

/- ---------------- NetworkMonitor.py : lock interleaving ---------------- -/

/- Interleaving model of the two critical sections over `self.throughput`:
the writer is the tail of a sampler iteration (lines 58-61: acquire
`self.lock`, assign `tx`, assign `rx`, release) and the reader is
`get_throughput` (lines 71-75: acquire, read `tx`, read `rx`, release).
Each field access is a separate step, so only the lock prevents torn
reads.  `published` is a history (ghost) variable: the complete pairs that
have ever been resident in `self.throughput`, seeded with the initial
(0, 0) pair and extended whenever a writer completes both assignments. -/

/-- Program counter of the writer critical section. -/
inductive WriterPC
  | idle
  | locked
  | wroteTx
  | wrote
  | done
deriving DecidableEq

/-- Program counter of the reader critical section. -/
inductive ReaderPC
  | idle
  | locked
  | readTx
  | readRx
  | done
deriving DecidableEq

/-- Holder of `self.lock`. -/
inductive LockOwner
  | free
  | writer
  | reader
deriving DecidableEq

/-- Shared state: the `self.throughput` fields, the lock, both program
counters, the reader's local copies, and the ghost history of complete
pairs. -/
structure ConcState where
  tx : ℚ
  rx : ℚ
  lock : LockOwner
  wpc : WriterPC
  rpc : ReaderPC
  r_tx : ℚ
  r_rx : ℚ
  published : List (ℚ × ℚ)
deriving DecidableEq

/-- Initial state: `__init__`'s zero pair, lock free, both sections not yet
entered. -/
def conc_init : ConcState :=
  { tx := 0, rx := 0, lock := .free, wpc := .idle, rpc := .idle,
    r_tx := 0, r_rx := 0, published := [(0, 0)] }

/-- One interleaving step: a writer about to store the pair
`(wtx, wrx)` runs concurrently with one `get_throughput` call.  Lock
acquisition blocks until the lock is free; each field assignment or read
is its own step. -/
inductive ConcStep (wtx wrx : ℚ) : ConcState → ConcState → Prop
  | w_acquire (s : ConcState) : s.wpc = .idle → s.lock = .free →
      ConcStep wtx wrx s { s with wpc := .locked, lock := .writer }
  | w_write_tx (s : ConcState) : s.wpc = .locked →
      ConcStep wtx wrx s { s with wpc := .wroteTx, tx := wtx }
  | w_write_rx (s : ConcState) : s.wpc = .wroteTx →
      ConcStep wtx wrx s
        { s with wpc := .wrote, rx := wrx, published := (wtx, wrx) :: s.published }
  | w_release (s : ConcState) : s.wpc = .wrote →
      ConcStep wtx wrx s { s with wpc := .done, lock := .free }
  | r_acquire (s : ConcState) : s.rpc = .idle → s.lock = .free →
      ConcStep wtx wrx s { s with rpc := .locked, lock := .reader }
  | r_read_tx (s : ConcState) : s.rpc = .locked →
      ConcStep wtx wrx s { s with rpc := .readTx, r_tx := s.tx }
  | r_read_rx (s : ConcState) : s.rpc = .readTx →
      ConcStep wtx wrx s { s with rpc := .readRx, r_rx := s.rx }
  | r_release (s : ConcState) : s.rpc = .readRx →
      ConcStep wtx wrx s { s with rpc := .done, lock := .free }

/-- States reachable from `conc_init` by interleaving the two critical
sections. -/
abbrev ConcReachable (wtx wrx : ℚ) (s : ConcState) : Prop :=
  Relation.ReflTransGen (ConcStep wtx wrx) conc_init s

/- ---------------- helper lemmas ---------------- -/

theorem issubclass_refl (c : EntityClass) : EntityClass.issubclass c c = true := by
  cases c <;> rfl

theorem pyEq_refl (e : Entity) : pyEq e e = true := by
  simp [pyEq, Entity.dunderEq, issubclass_refl]

theorem dictGet_dictSet_self {V : Type} (reg : List (Entity × V)) (e : Entity)
    (v : V) : dictGet (dictSet reg e v) e = some v := by
  induction reg with
  | nil => simp [dictSet, dictGet, pyEq_refl]
  | cons kv rest ih =>
    obtain ⟨k, w⟩ := kv
    by_cases hk : pyEq k e
    · simp [dictSet, dictGet, hk]
    · simp [dictSet, dictGet, hk, ih]

theorem dictSet_length_of_present {V : Type} (reg : List (Entity × V)) (e : Entity)
    (v : V) (h : (dictGet reg e).isSome) :
    (dictSet reg e v).length = reg.length := by
  induction reg with
  | nil => simp [dictGet] at h
  | cons kv rest ih =>
    obtain ⟨k, w⟩ := kv
    by_cases hk : pyEq k e
    · simp [dictSet, hk]
    · simp [dictGet, hk] at h
      simp [dictSet, hk, ih h]

/- Concrete entities used in witnesses and counterexamples. -/

/-- A concrete `Sensor` instance. -/
def cpuSensor : Entity :=
  { cls := .sensor, name := "CPU Usage", unique_id := "host_cpu_usage" }

/-- A concrete `Sensor` instance. -/
def tempSensor : Entity :=
  { cls := .sensor, name := "Temperature", unique_id := "probe_x" }

/-- A second `Sensor` sharing `tempSensor`'s key but no other attribute. -/
def otherTempSensor : Entity :=
  { cls := .sensor, name := "Temperature B", unique_id := "probe_x",
    icon := some "mdi:thermometer", qos := 1 }

/-- A `BinarySensor` sharing `tempSensor`'s key. -/
def motionBinary : Entity :=
  { cls := .binarySensor, name := "Motion", unique_id := "probe_x" }

/- ---------------- claim theorems ---------------- -/

/-- C1: the cache-gated decision of `publish_entity_state` returns true —
recording `(v, t)` as the entity's cache entry in the same step, after
which a transmission happens — exactly when no prior entry exists, or the
candidate differs from the stored value, or `t` minus the stored timestamp
strictly exceeds the republish interval; otherwise it returns false, no
transmission occurs, and the stored entry is untouched. -/
theorem publish_gate_correct (interval : ℚ) (mem : Memory) (e : Entity)
    (v : String) (t : ℚ) :
    (should_publish interval mem e v t = true ↔
      dictGet mem e = none ∨
        ∃ entry, dictGet mem e = some entry ∧
          (entry.value ≠ v ∨ t - entry.last_updated > interval))
    ∧ (should_publish interval mem e v t = true →
        publish_entity_state interval mem e v t true =
          .published (dictSet mem e ⟨v, t⟩) ∧
        dictGet (dictSet mem e ⟨v, t⟩) e = some ⟨v, t⟩)
    ∧ (should_publish interval mem e v t = false →
        publish_entity_state interval mem e v t true = .skipped mem) := by
  refine ⟨?_, ?_, ?_⟩
  · cases h : dictGet mem e with
    | none => simp [should_publish, h]
    | some entry => simp [should_publish, h, bne_iff_ne]
  · intro h
    exact ⟨by simp [publish_entity_state, h], dictGet_dictSet_self ..⟩
  · intro h
    simp [publish_entity_state, h]

/-- C1 witness: first publish of `cpuSensor` on an empty cache transmits
and records the entry. -/
theorem publish_gate_correct_witness :
    publish_entity_state 300 [] cpuSensor "42" 0 true =
      .published [(cpuSensor, ⟨"42", 0⟩)] ∧
    dictGet ([(cpuSensor, ⟨"42", 0⟩)] : Memory) cpuSensor = some ⟨"42", 0⟩ := by
  have h := (publish_gate_correct 300 [] cpuSensor "42" 0).2.1
    (by simp [should_publish, dictGet])
  simpa [dictSet] using h

/-- C2 counterexample: with republish interval 300, a first publish of
value "42" at time 0 transmits and records the entry, yet the second
decision for the same value at time 300 — exactly the republish interval
later — skips instead of republishing, because the staleness comparison
is strict. -/
theorem heartbeat_boundary_counterexample :
    publish_entity_state 300 [] cpuSensor "42" 0 true =
      .published [(cpuSensor, ⟨"42", 0⟩)] ∧
    (300 : ℚ) - 0 ≥ 300 ∧
    publish_entity_state 300 [(cpuSensor, ⟨"42", 0⟩)] cpuSensor "42" 300 true =
      .skipped [(cpuSensor, ⟨"42", 0⟩)] := by
  refine ⟨?_, by norm_num, ?_⟩ <;>
    norm_num [publish_entity_state, should_publish, dictGet, dictSet, pyEq,
      Entity.dunderEq, EntityClass.issubclass, cpuSensor]

/-- C2 amended: after a publish decision for `(e, v, t1)` returned true and
recorded the entry, a second decision for the same value at `t2` returns
true (heartbeat refresh) whenever `t2 - t1` STRICTLY exceeds the republish
interval; at `t2 - t1` exactly equal to the interval it returns false. -/
theorem heartbeat_refresh_strict (interval : ℚ) (mem mem1 : Memory)
    (e : Entity) (v : String) (t1 t2 : ℚ)
    (hfirst : publish_entity_state interval mem e v t1 true = .published mem1)
    (hgap : t2 - t1 > interval) :
    publish_entity_state interval mem1 e v t2 true =
      .published (dictSet mem1 e ⟨v, t2⟩) := by
  by_cases hsp : should_publish interval mem e v t1 = true
  · simp only [publish_entity_state, hsp, if_true] at hfirst
    have hmem1 : mem1 = dictSet mem e ⟨v, t1⟩ := by
      cases hfirst
      rfl
    have hlook : dictGet mem1 e = some ⟨v, t1⟩ := by
      rw [hmem1]
      exact dictGet_dictSet_self ..
    have hsp2 : should_publish interval mem1 e v t2 = true := by
      simp [should_publish, hlook, hgap]
    simp [publish_entity_state, hsp2]
  · simp [publish_entity_state, hsp] at hfirst

/-- C2 amended witness: interval 300, first publish at time 0, heartbeat
at time 301. -/
theorem heartbeat_refresh_strict_witness :
    publish_entity_state 300 [(cpuSensor, ⟨"42", 0⟩)] cpuSensor "42" 301 true =
      .published [(cpuSensor, ⟨"42", 301⟩)] := by
  have h := heartbeat_refresh_strict 300 [] [(cpuSensor, ⟨"42", 0⟩)] cpuSensor
    "42" 0 301
    (by norm_num [publish_entity_state, should_publish, dictGet, dictSet])
    (by norm_num)
  simpa [dictSet, pyEq_refl] using h

/-- C3 counterexample: on an empty cache, `publish_entity_state` with a
failing transport raises, yet the cache holds a brand-new entry for the
entity — an entry exists without any successful transmission. -/
theorem cache_entry_after_failed_publish :
    publish_entity_state 300 [] cpuSensor "42" 0 false =
      .transportError [(cpuSensor, ⟨"42", 0⟩)] ∧
    dictGet ([(cpuSensor, ⟨"42", 0⟩)] : Memory) cpuSensor = some ⟨"42", 0⟩ := by
  constructor <;>
    norm_num [publish_entity_state, should_publish, dictGet, dictSet, pyEq_refl]

/-- C3 amended: whenever the gate passes, the cache entry `(v, t)` is
written BEFORE the transport publish is attempted, so if the transport
raises, the exception propagates but the new or updated entry remains in
the cache — entries can exist without any successful transmission.  (On a
skip the cache is untouched, as in C1.) -/
theorem cache_updated_before_transmission (interval : ℚ) (mem : Memory)
    (e : Entity) (v : String) (t : ℚ)
    (hgate : should_publish interval mem e v t = true) :
    publish_entity_state interval mem e v t false =
      .transportError (dictSet mem e ⟨v, t⟩) ∧
    dictGet (dictSet mem e ⟨v, t⟩) e = some ⟨v, t⟩ := by
  exact ⟨by simp [publish_entity_state, hgate], dictGet_dictSet_self ..⟩

/-- C3 amended witness: concrete failing publish on an empty cache. -/
theorem cache_updated_before_transmission_witness :
    publish_entity_state 300 [] cpuSensor "42" 0 false =
      .transportError [(cpuSensor, ⟨"42", 0⟩)] := by
  have h := (cache_updated_before_transmission 300 [] cpuSensor "42" 0
    (by simp [should_publish, dictGet])).1
  simpa [dictSet] using h

/-- C5: registering an entity under a key already present in
`entity_value_getter_map` never raises (the dict update is total; the only
exception path of `register_entity` is the transport publish, which is
independent of duplication), replaces the stored getter with the new one,
and leaves the registry size unchanged. -/
theorem register_duplicate_key (G : Type) (reg : List (Entity × G))
    (e : Entity) (g1 g2 : G) :
    register_entity (dictSet reg e g1) e g2 true =
      .ok (dictSet (dictSet reg e g1) e g2)
    ∧ (dictSet (dictSet reg e g1) e g2).length = (dictSet reg e g1).length
    ∧ dictGet (dictSet (dictSet reg e g1) e g2) e = some g2 := by
  refine ⟨rfl, ?_, dictGet_dictSet_self ..⟩
  exact dictSet_length_of_present _ _ _ (by simp [dictGet_dictSet_self])

/-- C5 witness: re-registering `cpuSensor` (getters tagged by naturals). -/
theorem register_duplicate_key_witness :
    register_entity [(cpuSensor, 1)] cpuSensor 2 true = .ok [(cpuSensor, 2)]
    ∧ ([(cpuSensor, 2)] : List (Entity × ℕ)).length =
        ([(cpuSensor, 1)] : List (Entity × ℕ)).length
    ∧ dictGet [(cpuSensor, 2)] cpuSensor = some 2 := by
  have h := register_duplicate_key ℕ [] cpuSensor 1 2
  simpa [dictSet, pyEq_refl] using h

/-- C6 counterexample: a `Sensor` and a `BinarySensor` with the same
`unique_id` do not compare equal (in either direction, under the `__eq__`
methods and under Python `==` dispatch), because `__eq__` also demands a
subclass relationship between the two runtime classes. -/
theorem entity_eq_cross_class_counterexample :
    tempSensor.unique_id = motionBinary.unique_id ∧
    Entity.dunderEq tempSensor motionBinary = false ∧
    Entity.dunderEq motionBinary tempSensor = false ∧
    pyEq tempSensor motionBinary = false := by
  decide

/-- C6 amended: `__eq__` returns true exactly when the right operand's
class is a (reflexive) subclass of the left's AND the `unique_id`s are
equal — so entities of one class compare equal solely by the key,
regardless of every other attribute, while entities of unrelated classes
never compare equal; hashes agree whenever the `unique_id`s are equal. -/
theorem entity_eq_by_key_within_class (e1 e2 : Entity) :
    (Entity.dunderEq e1 e2 = true ↔
      (EntityClass.issubclass e2.cls e1.cls = true ∧ e1.unique_id = e2.unique_id))
    ∧ (e1.unique_id = e2.unique_id → entity_hash e1 = entity_hash e2) := by
  constructor
  · by_cases h : EntityClass.issubclass e2.cls e1.cls = true <;>
      simp [Entity.dunderEq, h]
  · intro h
    simp [entity_hash, h]

/-- C6 amended witness: two `Sensor`s sharing only the key compare equal
and hash alike. -/
theorem entity_eq_by_key_within_class_witness :
    Entity.dunderEq tempSensor otherTempSensor = true ∧
    entity_hash tempSensor = entity_hash otherTempSensor := by
  refine ⟨(entity_eq_by_key_within_class tempSensor otherTempSensor).1.mpr
    (by decide), (entity_eq_by_key_within_class tempSensor otherTempSensor).2
    (by decide)⟩

/-- C4: on every iteration of the sampler loop — after any number of
successful iterations, whatever schedule would follow — an unavailable
counter reading at either the initial or the final read of that iteration
fails the whole run at sample time with the interface-not-found error, and
nothing after the failing iteration is ever attempted (no internal
retry). -/
theorem sampler_fails_on_missing_interface (interface : String) (dt : ℚ)
    (pre : List (NetIOCounters × NetIOCounters))
    (r1 r2 : Option NetIOCounters) (hfail : r1 = none ∨ r2 = none)
    (rest : List (Option NetIOCounters × Option NetIOCounters))
    (tp : Throughput) :
    calculate_throughput_run interface dt
      (pre.map (fun p => (some p.1, some p.2)) ++ (r1, r2) :: rest) tp =
      .error (.interfaceNotFound interface) := by
  induction pre generalizing tp with
  | nil =>
    rcases hfail with h | h
    · subst h
      simp [calculate_throughput_run, calculate_throughput_iteration]
    · subst h
      cases r1 <;>
        simp [calculate_throughput_run, calculate_throughput_iteration]
  | cons p pre ih =>
    simpa [calculate_throughput_run, calculate_throughput_iteration]
      using ih _

/-- C4 witness: one successful iteration, then the interface vanishes at
the initial read of the second iteration; a later read is scheduled but
never reached. -/
theorem sampler_fails_on_missing_interface_witness :
    calculate_throughput_run "eth0" 1
      (([(⟨0, 0⟩, ⟨5, 5⟩)] : List (NetIOCounters × NetIOCounters)).map
          (fun p => (some p.1, some p.2)) ++
        (none, some ⟨9, 9⟩) :: [(some ⟨10, 10⟩, some ⟨11, 11⟩)])
      initial_throughput = .error (.interfaceNotFound "eth0") :=
  sampler_fails_on_missing_interface "eth0" 1 [(⟨0, 0⟩, ⟨5, 5⟩)]
    none (some ⟨9, 9⟩) (Or.inl rfl) [(some ⟨10, 10⟩, some ⟨11, 11⟩)]
    initial_throughput

/-- C7: throughput unit conversion is the pure function
`rate_bytes / unit_factor` applied to each direction, with factors 1,
1000, 1000000 and 1000000000; converting a stored 1,000,000 B/s with the
MB/s unit yields exactly 1. -/
theorem unit_conversion_pure :
    (NMUnit.factor .Bytes = 1 ∧ NMUnit.factor .KiloBytes = 1000 ∧
      NMUnit.factor .MegaBytes = 1000000 ∧
      NMUnit.factor .GigaBytes = 1000000000)
    ∧ (∀ (tp : Throughput) (u : NMUnit),
        get_throughput tp u = ⟨tp.tx / u.factor, tp.rx / u.factor⟩)
    ∧ (get_throughput ⟨1000000, 0⟩ .MegaBytes).tx = 1 := by
  refine ⟨⟨rfl, rfl, rfl, rfl⟩, fun tp u => rfl, ?_⟩
  norm_num [get_throughput, NMUnit.factor]

/-- C8: one sampler iteration stores
`tx = (final_sent - initial_sent) / sample_interval` and
`rx = (final_recv - initial_recv) / sample_interval` as the new
throughput pair; with initial (1000, 2000), final (3000, 2400) and a
2-second interval, the stored pair is (1000, 200) B/s. -/
theorem sampler_iteration_rates :
    (∀ (i : String) (dt : ℚ) (a b : NetIOCounters) (tp : Throughput),
      calculate_throughput_run i dt [(some a, some b)] tp =
        .ok ⟨((b.bytes_sent - a.bytes_sent : Int) : ℚ) / dt,
             ((b.bytes_recv - a.bytes_recv : Int) : ℚ) / dt⟩)
    ∧ calculate_throughput_run "eth0" 2
        [(some ⟨1000, 2000⟩, some ⟨3000, 2400⟩)] initial_throughput =
        .ok ⟨1000, 200⟩ := by
  refine ⟨fun i dt a b tp => rfl, ?_⟩
  norm_num [calculate_throughput_run, calculate_throughput_iteration]

/-- C10: for every unit, reading the throughput before any sample cycle
has completed (the `__init__` state) returns the pair (0, 0) — zero
rates, not an error or an absent value. -/
theorem get_throughput_initial_zero (u : NMUnit) :
    get_throughput initial_throughput u = ⟨0, 0⟩ := by
  cases u <;> simp [get_throughput, initial_throughput, NMUnit.factor]

/- ---------------- C9 : lock atomicity invariant ---------------- -/

/-- Inductive invariant of the interleaving model: holding a program
counter inside a critical section implies owning the lock; outside the
writer's mid-write window the resident pair is one of the complete
published pairs; the reader's partial copy matches the shared field it
read; a finished reader holds a complete published pair; and the history
only ever contains the initial pair and the writer's pair. -/
def ConcInv (wtx wrx : ℚ) (s : ConcState) : Prop :=
  (s.wpc = .locked ∨ s.wpc = .wroteTx ∨ s.wpc = .wrote → s.lock = .writer) ∧
  (s.rpc = .locked ∨ s.rpc = .readTx ∨ s.rpc = .readRx → s.lock = .reader) ∧
  (s.wpc ≠ .wroteTx → (s.tx, s.rx) ∈ s.published) ∧
  (s.wpc = .wroteTx → s.tx = wtx) ∧
  (s.rpc = .readTx → s.r_tx = s.tx) ∧
  (s.rpc = .readRx ∨ s.rpc = .done → (s.r_tx, s.r_rx) ∈ s.published) ∧
  (∀ p ∈ s.published, p = (0, 0) ∨ p = (wtx, wrx))

theorem conc_inv_init (wtx wrx : ℚ) : ConcInv wtx wrx conc_init := by
  refine ⟨?_, ?_, ?_, ?_, ?_, ?_, ?_⟩ <;> simp [conc_init, ConcInv]

theorem conc_inv_step (wtx wrx : ℚ) (s s' : ConcState)
    (hinv : ConcInv wtx wrx s) (hstep : ConcStep wtx wrx s s') :
    ConcInv wtx wrx s' := by
  obtain ⟨h1, h2, h3, h4, h5, h6, h7⟩ := hinv
  cases hstep with
  | w_acquire hw hl =>
    refine ⟨fun _ => rfl, ?_, ?_, ?_, ?_, ?_, ?_⟩
    · intro h
      exact absurd ((h2 h).symm.trans hl) (by simp)
    · intro _
      exact h3 (by simp [hw])
    · intro h
      exact absurd h (by simp)
    · exact h5
    · exact h6
    · exact h7
  | w_write_tx hw =>
    have hlock : s.lock = .writer := h1 (Or.inl hw)
    refine ⟨fun _ => hlock, ?_, ?_, fun _ => rfl, ?_, ?_, ?_⟩
    · intro h
      exact absurd ((h2 h).symm.trans hlock) (by simp)
    · intro h
      exact absurd h (by simp)
    · intro h
      exact absurd ((h2 (Or.inr (Or.inl h))).symm.trans hlock) (by simp)
    · exact h6
    · exact h7
  | w_write_rx hw =>
    have hlock : s.lock = .writer := h1 (Or.inr (Or.inl hw))
    refine ⟨fun _ => hlock, ?_, ?_, ?_, ?_, ?_, ?_⟩
    · intro h
      exact absurd ((h2 h).symm.trans hlock) (by simp)
    · intro _
      simp [h4 hw]
    · intro h
      exact absurd h (by simp)
    · intro h
      exact absurd ((h2 (Or.inr (Or.inl h))).symm.trans hlock) (by simp)
    · intro h
      exact List.mem_cons_of_mem _ (h6 h)
    · intro p hp
      rcases List.mem_cons.mp hp with h | h
      · exact Or.inr h
      · exact h7 p h
  | w_release hw =>
    have hlock : s.lock = .writer := h1 (Or.inr (Or.inr hw))
    refine ⟨?_, ?_, ?_, ?_, ?_, ?_, ?_⟩
    · intro h
      exact absurd h (by simp)
    · intro h
      exact absurd ((h2 h).symm.trans hlock) (by simp)
    · intro _
      exact h3 (by simp [hw])
    · intro h
      exact absurd h (by simp)
    · exact h5
    · exact h6
    · exact h7
  | r_acquire hr hl =>
    refine ⟨?_, fun _ => rfl, ?_, ?_, ?_, ?_, ?_⟩
    · intro h
      exact absurd ((h1 h).symm.trans hl) (by simp)
    · exact h3
    · exact h4
    · intro h
      exact absurd h (by simp)
    · intro h
      exact absurd h (by simp [hr])
    · exact h7
  | r_read_tx hr =>
    have hlock : s.lock = .reader := h2 (Or.inl hr)
    refine ⟨?_, fun _ => hlock, ?_, ?_, fun _ => rfl, ?_, ?_⟩
    · intro h
      exact absurd ((h1 h).symm.trans hlock) (by simp)
    · exact h3
    · exact h4
    · intro h
      exact absurd h (by simp)
    · exact h7
  | r_read_rx hr =>
    have hlock : s.lock = .reader := h2 (Or.inr (Or.inl hr))
    have hwnot : s.wpc ≠ .wroteTx := by
      intro hc
      exact absurd ((h1 (Or.inr (Or.inl hc))).symm.trans hlock) (by simp)
    refine ⟨?_, fun _ => hlock, ?_, ?_, ?_, ?_, ?_⟩
    · intro h
      exact absurd ((h1 h).symm.trans hlock) (by simp)
    · exact h3
    · exact h4
    · intro h
      exact absurd h (by simp)
    · intro _
      have := h3 hwnot
      simpa [h5 hr] using this
    · exact h7
  | r_release hr =>
    refine ⟨?_, ?_, ?_, ?_, ?_, ?_, ?_⟩
    · intro h
      have hlock : s.lock = .reader := h2 (Or.inr (Or.inr hr))
      exact absurd ((h1 h).symm.trans hlock) (by simp)
    · intro h
      exact absurd h (by simp)
    · exact h3
    · exact h4
    · intro h
      exact absurd h (by simp [hr])
    · intro _
      exact h6 (Or.inl hr)
    · exact h7

theorem conc_reachable_inv (wtx wrx : ℚ) (s : ConcState)
    (h : ConcReachable wtx wrx s) : ConcInv wtx wrx s := by
  induction h with
  | refl => exact conc_inv_init wtx wrx
  | tail _hr hstep ih => exact conc_inv_step wtx wrx _ _ ih hstep

/-- C9: a `get_throughput` call interleaved with the sampler's update of
the shared pair never observes a torn pair: in every reachable state of
the interleaving model in which the reader has finished, the pair it
read is either the complete pair from before the writer's update or the
complete pair the writer wrote — never a mix — because each critical
section runs entirely under the same lock. -/
theorem reader_never_torn (wtx wrx : ℚ) (s : ConcState)
    (h : ConcReachable wtx wrx s) (hdone : s.rpc = .done) :
    (s.r_tx, s.r_rx) = ((0 : ℚ), (0 : ℚ)) ∨ (s.r_tx, s.r_rx) = (wtx, wrx) := by
  obtain ⟨_, _, _, _, _, h6, h7⟩ := conc_reachable_inv wtx wrx s h
  exact h7 _ (h6 (Or.inr hdone))

/-- Fully interleaved-and-completed state reached by a writer storing
(5, 7) followed by a complete reader section. -/
def conc_final : ConcState :=
  { tx := 5, rx := 7, lock := .free, wpc := .done, rpc := .done,
    r_tx := 5, r_rx := 7, published := [(5, 7), (0, 0)] }

/-- C9 witness: along a concrete schedule (writer writes (5, 7), then a
reader runs), the finished reader's pair is one of the two complete
pairs. -/
theorem reader_never_torn_witness :
    (conc_final.r_tx, conc_final.r_rx) = ((0 : ℚ), (0 : ℚ)) ∨
    (conc_final.r_tx, conc_final.r_rx) = ((5 : ℚ), (7 : ℚ)) := by
  refine reader_never_torn 5 7 conc_final ?_ rfl
  have t0 : ConcReachable 5 7 conc_init := Relation.ReflTransGen.refl
  have t1 := t0.tail (ConcStep.w_acquire conc_init rfl rfl)
  have t2 := t1.tail (ConcStep.w_write_tx _ rfl)
  have t3 := t2.tail (ConcStep.w_write_rx _ rfl)
  have t4 := t3.tail (ConcStep.w_release _ rfl)
  have t5 := t4.tail (ConcStep.r_acquire _ rfl rfl)
  have t6 := t5.tail (ConcStep.r_read_tx _ rfl)
  have t7 := t6.tail (ConcStep.r_read_rx _ rfl)
  have t8 := t7.tail (ConcStep.r_release _ rfl)
  exact t8

end PyDiag
